import Mathlib

/-!
Shallow embedding of `src/AVX2Operations/AVX2Operations.cpp` from the
CoreRipperX repository, together with theorems about its only function,
`PerformHeavyLoad`:

```cpp
extern "C" __declspec(dllexport) void PerformHeavyLoad()
{
    __m256i vec = _mm256_set1_epi32(1);
    for (int i = 0; i < 1000000000; i++)
    {
        vec = _mm256_add_epi32(vec, _mm256_set1_epi32(1));
    }
}
```

A `__m256i` used through the `_epi32` intrinsics is eight independent
32-bit lanes; we model it as `Fin 8 → Nat` with every lane reduced
modulo `2 ^ 32`.  The `for` loop is modelled as a recursive function on
the signed counter `i : Int`, instrumented with a count of the vector-add
operations performed, exactly as the spec's instrumented build describes.
-/

namespace CoreRipperX

/-- The loop bound from the source: `i < 1000000000`. -/
def iterationCount : Nat := 1000000000

/-- A `__m256i` register viewed through the `_epi32` intrinsics:
eight 32-bit lanes. -/
abbrev M256i := Fin 8 → Nat

/-- `_mm256_set1_epi32 x`: broadcast the 32-bit value `x` to all 8 lanes. -/
def mm256_set1_epi32 (x : Nat) : M256i := fun _ => x % 2 ^ 32

/-- `_mm256_add_epi32 a b`: lane-wise 32-bit addition with wraparound. -/
def mm256_add_epi32 (a b : M256i) : M256i := fun lane => (a lane + b lane) % 2 ^ 32

/-- The loop body `vec = _mm256_add_epi32(vec, _mm256_set1_epi32(1))`. -/
def heavyLoadStep (v : M256i) : M256i := mm256_add_epi32 v (mm256_set1_epi32 1)

/-- The `for (int i = ...; i < 1000000000; i++)` loop, starting from counter
value `i`, accumulator `v`, and `ops` vector-add operations already
performed.  Returns the final accumulator and the total operation count. -/
def loopFrom (i : Int) (v : M256i) (ops : Nat) : M256i × Nat :=
  if i < 1000000000 then loopFrom (i + 1) (heavyLoadStep v) (ops + 1) else (v, ops)
termination_by (1000000000 - i).toNat
decreasing_by omega

/-- `PerformHeavyLoad`: initialize the accumulator to all-ones, run the loop,
discard the result, return nothing. -/
def PerformHeavyLoad : Unit :=
  let vec := mm256_set1_epi32 1
  let _ := loopFrom 0 vec 0
  ()

/-- `PerformHeavyLoad` with every step wrapped in `Except`: the source body
has no allocation, no I/O, and no fallible step, so no step can return
`Except.error`. -/
def PerformHeavyLoadExc : Except String Unit := do
  let vec := mm256_set1_epi32 1
  let _ := loopFrom 0 vec 0
  pure ()

/-- Ambient-state embedding of `PerformHeavyLoad`: the body reads and writes
only its locals `vec` and `i`, so for any type `S` of ambient state
(memory, file system, globals) the state `σ` is threaded through unchanged. -/
def PerformHeavyLoadOn {S : Type} (σ : S) : S × Unit :=
  let vec := mm256_set1_epi32 1
  let _ := loopFrom 0 vec 0
  (σ, ())

/-- Closed form of the loop: starting at counter `i` with `i + n = 10^9`,
the loop performs exactly `n` more steps. -/
theorem loopFrom_closed (n : Nat) : ∀ (i : Int) (v : M256i) (ops : Nat),
    0 ≤ i → i + n = 1000000000 →
    loopFrom i v ops = (heavyLoadStep^[n] v, ops + n) := by
  induction n with
  | zero =>
    intro i v ops hi hn
    rw [loopFrom]
    have h : ¬ i < 1000000000 := by omega
    simp [h]
  | succ m ih =>
    intro i v ops hi hn
    rw [loopFrom]
    have hlt : i < 1000000000 := by omega
    rw [if_pos hlt, ih (i + 1) (heavyLoadStep v) (ops + 1) (by omega) (by omega)]
    simp only [Prod.mk.injEq]
    exact ⟨(Function.iterate_succ_apply heavyLoadStep m v).symm, by omega⟩

/-- After `k` iterations of the loop body, every lane of the accumulator
holds `(1 + k) % 2^32`. -/
theorem heavyLoadStep_iterate_lane (k : Nat) (lane : Fin 8) :
    heavyLoadStep^[k] (mm256_set1_epi32 1) lane = (1 + k) % 2 ^ 32 := by
  have h32 : (2 : Nat) ^ 32 = 4294967296 := by norm_num
  induction k with
  | zero => simp [mm256_set1_epi32, h32]
  | succ m ih =>
    rw [Function.iterate_succ_apply', heavyLoadStep, mm256_add_epi32,
      mm256_set1_epi32]
    rw [ih, h32]
    omega

/-- C1: After `PerformHeavyLoad` runs to completion, each of the 8 lanes of
the accumulator vector holds `(1 + 1000000000) % 2^32 = 1000000001 % 2^32`. -/
theorem performHeavyLoad_final_lanes (lane : Fin 8) :
    (loopFrom 0 (mm256_set1_epi32 1) 0).1 lane = 1000000001 % 2 ^ 32 := by
  rw [loopFrom_closed 1000000000 0 (mm256_set1_epi32 1) 0 (by norm_num) (by norm_num)]
  have h := heavyLoadStep_iterate_lane 1000000000 lane
  simp only [Prod.fst] at h ⊢
  rw [h]

/-- C2: `PerformHeavyLoad` performs exactly 1,000,000,000 vector-add
operations on the accumulator: the instrumented operation counter of the
loop ends at exactly `iterationCount`. -/
theorem performHeavyLoad_op_count :
    (loopFrom 0 (mm256_set1_epi32 1) 0).2 = iterationCount := by
  rw [loopFrom_closed 1000000000 0 (mm256_set1_epi32 1) 0 (by norm_num) (by norm_num)]
  simp [iterationCount]

/-- C3: each iteration's addition is lane-wise modular arithmetic on 32-bit
lanes: for every lane value `v lane`, adding 1 yields `(v lane + 1) % 2^32`,
with silent wraparound rather than saturation or an error. -/
theorem add_one_wraps (v : M256i) (lane : Fin 8) :
    mm256_add_epi32 v (mm256_set1_epi32 1) lane = (v lane + 1) % 2 ^ 32 := by
  show (v lane + 1 % 2 ^ 32) % 2 ^ 32 = (v lane + 1) % 2 ^ 32
  norm_num

/-- C4: calling `PerformHeavyLoad` terminates: the loop returns after
finitely many steps (exactly `iterationCount` of them), from any starting
accumulator. -/
theorem performHeavyLoad_terminates (v : M256i) :
    loopFrom 0 v 0 = (heavyLoadStep^[iterationCount] v, iterationCount) := by
  have h := loopFrom_closed iterationCount 0 v 0 (by norm_num)
    (by norm_num [iterationCount])
  rw [Nat.zero_add] at h
  exact h

/-- C5: before the loop begins, the accumulator is an 8-lane 32-bit integer
vector with every lane set to 1. -/
theorem initial_lanes_one (lane : Fin 8) : mm256_set1_epi32 1 lane = 1 := by
  show 1 % 2 ^ 32 = 1
  norm_num

/-- C6: `PerformHeavyLoad` takes no arguments and returns no value (its
embedding has type `Unit`), and the computed accumulator value is never
delivered to the caller: the result is exactly `()`. -/
theorem performHeavyLoad_no_output : PerformHeavyLoad = () := rfl

/-- C7: `PerformHeavyLoad` never fails: in the `Except` embedding of the
body (which has no fallible step) the result is always the success case. -/
theorem performHeavyLoad_no_failure : PerformHeavyLoadExc = Except.ok () := rfl

/-- C8: `PerformHeavyLoad` leaves all state outside its own locals
unchanged: for any ambient state `σ`, the state after the call equals the
state before the call. -/
theorem performHeavyLoad_frame {S : Type} (σ : S) :
    PerformHeavyLoadOn σ = (σ, ()) := rfl

/-- C9: at every point in the loop all 8 lanes of the accumulator hold the
same value: after `k` completed iterations (`k ≤ 1000000000`) every lane
equals `(k + 1) % 2^32`. -/
theorem loop_invariant_lanes (k : Nat) (hk : k ≤ iterationCount) (lane : Fin 8) :
    heavyLoadStep^[k] (mm256_set1_epi32 1) lane = (k + 1) % 2 ^ 32 := by
  rw [heavyLoadStep_iterate_lane, Nat.add_comm]

/-- Witness for C9 at `k = 5`: the hypothesis `5 ≤ iterationCount` holds
and lane 0 after 5 iterations equals `(5 + 1) % 2^32`. -/
theorem loop_invariant_lanes_witness :
    5 ≤ iterationCount ∧
      heavyLoadStep^[5] (mm256_set1_epi32 1) 0 = (5 + 1) % 2 ^ 32 :=
  ⟨by norm_num [iterationCount],
   loop_invariant_lanes 5 (by norm_num [iterationCount]) 0⟩

/-- C10: no overflow is ever exercised during execution: after `k ≤ 10^9`
iterations every lane equals `k + 1` exactly, strictly below `2^32` (the
modular reduction is vacuous), and every value the signed loop counter
takes (`0 ≤ i ≤ 10^9`) is strictly below `2^31`. -/
theorem no_overflow_exercised (k : Nat) (hk : k ≤ iterationCount) :
    (∀ lane : Fin 8,
      heavyLoadStep^[k] (mm256_set1_epi32 1) lane = k + 1 ∧ k + 1 < 2 ^ 32) ∧
    (∀ i : Int, 0 ≤ i → i ≤ (iterationCount : Int) → i < 2 ^ 31) := by
  have hk' : k ≤ 1000000000 := hk
  have h32 : (2 : Nat) ^ 32 = 4294967296 := by norm_num
  have h31 : (2 : Int) ^ 31 = 2147483648 := by norm_num
  have hcast : (iterationCount : Int) = 1000000000 := by norm_num [iterationCount]
  refine ⟨fun lane => ?_, fun i h0 hN => ?_⟩
  · rw [heavyLoadStep_iterate_lane k lane, h32]
    omega
  · rw [h31]
    rw [hcast] at hN
    omega

/-- Witness for C10 at `k = 3` and counter value `i = 7`: lane 0 equals
`3 + 1` and the counter value is below `2^31`. -/
theorem no_overflow_exercised_witness :
    heavyLoadStep^[3] (mm256_set1_epi32 1) 0 = 3 + 1 ∧ (7 : Int) < 2 ^ 31 :=
  ⟨((no_overflow_exercised 3 (by norm_num [iterationCount])).1 0).1,
   (no_overflow_exercised 3 (by norm_num [iterationCount])).2 7 (by norm_num)
     (by norm_num [iterationCount])⟩

end CoreRipperX
